import Mathlib

/-
  Verification of the URI parsing library in src/pkg/uri (uri.c, uri.h).

  Modelling conventions:
  - A C string is a List Nat of byte values in 0..255; reading the byte at the
    cursor when the list is empty yields the NUL terminator 0 (hd0 below), which
    matches how every matcher in uri.c detects the end of the input.
  - Cursors (const char *) are the remaining suffix of the input list; a matcher
    that advances *str returns the new suffix, and a matcher that fails leaves
    the cursor argument unchanged, exactly as the C code only assigns *str = cur
    on its success paths.
  - Bytes at or above 0x80 are modelled as they behave when the C char type is
    signed (the default on the common x86-64 ABIs): every range test of uri.h
    of the form lo <= *p && *p <= hi with hi < 0x80 is false for such bytes
    under both signedness conventions, so the grammar predicates below are
    written over plain byte values; the two places where signedness is visible
    (the shift ch >> 4 in minio_uri_string_escape and the lower-bound-only
    comparison *(cur+2) >= '0' in minio_rfc3986_dec_octet) are modelled with
    the signed reading and commented at their definitions.
  - malloc/strndup/strdup never fail in the model; the str == NULL checks inside
    the static matchers are unreachable (every caller passes the address of a
    local), and NULL inputs to the public entry points are modelled with Option.
  - The FREE macro of uri.h stores the sentinel pointer 0xeeeeeeee into a freed
    field; a field is therefore three-valued: NULL, sentinel, or an owned
    string.  minio_uri_parse relies on this sentinel to detect failed parses.
-/

namespace MinioUri

/-- Byte at the cursor; 0 is the NUL terminator seen at the end of the input. -/
def hd0 (l : List Nat) : Nat := l.headD 0

/-- Byte at cursor + 1 (reads the terminator or beyond as 0, as C reads the
    byte after the last one only when that byte exists or is the NUL). -/
def hd1 (l : List Nat) : Nat := (l.drop 1).headD 0

/-- Byte at cursor + 2. -/
def hd2 (l : List Nat) : Nat := (l.drop 2).headD 0

/-- ISA_DIGIT(p) of uri.h. -/
def isaDigit (l : List Nat) : Bool := decide (48 ≤ hd0 l ∧ hd0 l ≤ 57)

/-- ISA_ALPHA(p) of uri.h. -/
def isaAlpha (l : List Nat) : Bool :=
  decide ((97 ≤ hd0 l ∧ hd0 l ≤ 122) ∨ (65 ≤ hd0 l ∧ hd0 l ≤ 90))

/-- Single-byte hex-digit test, shared by ISA_HEXDIG and the is_hex macro
    (both test the same three ranges). -/
def hexDigB (b : Nat) : Bool :=
  decide ((48 ≤ b ∧ b ≤ 57) ∨ (97 ≤ b ∧ b ≤ 102) ∨ (65 ≤ b ∧ b ≤ 70))

/-- ISA_SUB_DELIM(p): one of ! $ & ( ) * + , ; = apostrophe. -/
def isaSubDelim (l : List Nat) : Bool :=
  [33, 36, 38, 40, 41, 42, 43, 44, 59, 61, 39].contains (hd0 l)

/-- ISA_UNRESERVED(p): ALPHA / DIGIT / - . _ ~. -/
def isaUnreserved (l : List Nat) : Bool :=
  isaAlpha l || isaDigit l || [45, 46, 95, 126].contains (hd0 l)

/-- ISA_PCT_ENCODED(p): percent sign followed by two hex digits. -/
def isaPctEncoded (l : List Nat) : Bool :=
  (hd0 l == 37) && hexDigB (hd1 l) && hexDigB (hd2 l)

/-- ISA_PCHAR(p). -/
def isaPchar (l : List Nat) : Bool :=
  isaUnreserved l || isaPctEncoded l || isaSubDelim l || (hd0 l == 58) || (hd0 l == 64)

/-- IS_UNWISE(p): left brace, right brace, vertical bar, backslash, caret,
    square brackets, backquote. -/
def isUnwise (l : List Nat) : Bool :=
  [123, 125, 124, 92, 94, 91, 93, 96].contains (hd0 l)

/-- IS_UNRESERVED(x) of the legacy RFC 2396 macros (alphanum or mark), used by
    minio_uri_string_escape. -/
def isUnreservedOld (b : Nat) : Bool :=
  decide ((97 ≤ b ∧ b ≤ 122) ∨ (65 ≤ b ∧ b ≤ 90) ∨ (48 ≤ b ∧ b ≤ 57)) ||
  [45, 95, 46, 33, 126, 42, 39, 40, 41].contains b

/-- Scanner for the loops that advance with NEXT(p): one byte normally, three
    bytes when the byte at the cursor is the percent sign.  When fewer than
    three bytes remain after a percent sign the C pointer arithmetic lands on
    the terminator, i.e. the rest is empty (unreachable for the predicates
    used here, which only accept a percent sign as part of a full escape). -/
def scanNextR (p : List Nat → Bool) : List Nat → List Nat
  | [] => []
  | b :: t =>
    if p (b :: t) then
      if b == 37 then
        match t with
        | _ :: _ :: t2 => scanNextR p t2
        | _ => []
      else scanNextR p t
    else b :: t

/-- Scanner for the loops that advance with plain cur++. -/
def scan1R (p : List Nat → Bool) : List Nat → List Nat
  | [] => []
  | b :: t => if p (b :: t) then scan1R p t else b :: t

/-- The bytes between the original cursor s and the advanced cursor rest, i.e.
    the cur - *str consumed range (rest is always a suffix of s). -/
def consumed (s rest : List Nat) : List Nat := s.take (s.length - rest.length)

/-- strlen: bytes before the first NUL. -/
def cstrlen (l : List Nat) : Nat := (l.takeWhile (fun b => b != 0)).length

/-- hex value of a hex-digit byte, as computed by the three range branches of
    minio_uri_string_unescape (0 when not a hex digit, unreachable there). -/
def hexVal (b : Nat) : Nat :=
  if 48 ≤ b ∧ b ≤ 57 then b - 48
  else if 97 ≤ b ∧ b ≤ 102 then b - 97 + 10
  else if 65 ≤ b ∧ b ≤ 70 then b - 65 + 10
  else 0

/-- The loop of minio_uri_string_unescape: a percent sign with at least two
    further bytes remaining (len > 2) and both hex decodes to one byte;
    anything else is copied verbatim. -/
def unescapeCore : List Nat → List Nat
  | [] => []
  | 37 :: a :: c :: t =>
    if hexDigB a && hexDigB c then (hexVal a * 16 + hexVal c) :: unescapeCore t
    else 37 :: unescapeCore (a :: c :: t)
  | b :: t => b :: unescapeCore t

/-- minio_uri_string_unescape(str, len, target): len at most 0 means strlen;
    exactly len bytes are then processed.  (The target buffer and the NULL-str
    case are memory-level details outside the model.) -/
def minio_uri_string_unescape (str : List Nat) (len : Int) : List Nat :=
  let n : Nat := if len ≤ 0 then cstrlen str else len.toNat
  unescapeCore (str.take n)

/-- The value of the C expression (unsigned char)(ch >> 4) in
    minio_uri_string_escape, where ch is a (signed) char holding byte b: for
    b < 0x80 this is the high nibble, for b >= 0x80 the arithmetic shift of the
    negative value yields b / 16 + 240. -/
def escHiVal (b : Nat) : Nat := if b < 128 then b / 16 else b / 16 + 240

/-- ret[out++] = val <= 9 ? '0' + val : 'A' + val - 0xA, truncated to a byte
    as the int result is stored into a char array. -/
def hexDigitChar (v : Nat) : Nat := if v ≤ 9 then 48 + v else (65 + v - 10) % 256

/-- The loop of minio_uri_string_escape: stops at the NUL; a byte that is not
    the at sign, not legacy-unreserved and not in the exception list is emitted
    as a percent escape, everything else verbatim.  The low nibble ch & 0xF
    equals b % 16 under both char signedness conventions. -/
def escapeCore (list : List Nat) : List Nat → List Nat
  | [] => []
  | b :: t =>
    if b == 0 then []
    else if !(b == 64) && !(isUnreservedOld b) && !(list.contains b) then
      37 :: hexDigitChar (escHiVal b) :: hexDigitChar (b % 16) :: escapeCore list t
    else b :: escapeCore list t

/-- minio_uri_string_escape(str, list). -/
def minio_uri_string_escape (str list : List Nat) : List Nat := escapeCore list str

/-- One owned field of the bURI record: NULL, the 0xeeeeeeee sentinel written
    by the FREE macro, or an owned string. -/
inductive Field where
  | null : Field
  | poison : Field
  | val : List Nat → Field
deriving DecidableEq

/-- The FREE macro of uri.h: a non-NULL field is released and overwritten with
    the sentinel. -/
def Field.free : Field → Field
  | .null => .null
  | _ => .poison

/-- Whether a field currently holds an owned string. -/
def Field.isVal : Field → Bool
  | .val _ => true
  | _ => false

/-- The bURI record of uri.h (opq models the field named opaque there). -/
structure bURI where
  scheme : Field
  opq : Field
  authority : Field
  server : Field
  user : Field
  port : Int
  path : Field
  fragment : Field
  cleanup : Nat
  query : Field
  query_raw : Field
deriving DecidableEq

/-- minio_uri_new: malloc + memset 0. -/
def freshURI : bURI :=
  { scheme := .null, opq := .null, authority := .null, server := .null,
    user := .null, port := 0, path := .null, fragment := .null, cleanup := 0,
    query := .null, query_raw := .null }

/-- The URI_TRIM macro: releases scheme, server, user, path, fragment, opaque,
    authority and query; it does not touch query_raw, port or cleanup. -/
def URI_TRIM (u : bURI) : bURI :=
  { u with scheme := u.scheme.free, server := u.server.free, user := u.user.free,
           path := u.path.free, fragment := u.fragment.free, opq := u.opq.free,
           authority := u.authority.free, query := u.query.free }

/-- How a matcher stores a captured component: with cleanup bit 1 set (raw
    mode) a strndup of the consumed bytes, otherwise
    minio_uri_string_unescape(*str, cur - *str, NULL).  The unescape call
    receives the consumed length, and when that length is 0 it falls back to
    strlen of the full remaining string, so the model passes pre ++ rest. -/
def captureField (cleanup : Nat) (pre rest : List Nat) : Field :=
  if cleanup &&& 2 != 0 then .val (pre.takeWhile (fun b => b != 0))
  else .val (minio_uri_string_unescape (pre ++ rest) (pre.length : Int))

/-- Helper to convert an ASCII string literal into its byte list. -/
def bstr (s : String) : List Nat := s.toList.map Char.toNat

/-- minio_rfc3986_scheme: ALPHA *( ALPHA / DIGIT / + / - / . ); the captured
    bytes are stored with strndup (never unescaped). -/
def minio_rfc3986_scheme (u : bURI) (s : List Nat) : Int × bURI × List Nat :=
  if !(isaAlpha s) then (2, u, s)
  else
    let rest := scan1R
      (fun l => isaAlpha l || isaDigit l ||
                (hd0 l == 43) || (hd0 l == 45) || (hd0 l == 46)) (s.drop 1)
    (0, { u with scheme := .val ((consumed s rest).takeWhile (fun b => b != 0)) }, rest)

/-- minio_rfc3986_fragment: *( pchar / "/" / "?" / "[" / "]" ), plus the unwise
    bytes when cleanup bit 0 is set; never fails. -/
def minio_rfc3986_fragment (u : bURI) (s : List Nat) : Int × bURI × List Nat :=
  let rest := scanNextR
    (fun l => isaPchar l || (hd0 l == 47) || (hd0 l == 63) ||
              (hd0 l == 91) || (hd0 l == 93) ||
              ((u.cleanup &&& 1 != 0) && isUnwise l)) s
  (0, { u with fragment := captureField u.cleanup (consumed s rest) rest }, rest)

/-- minio_rfc3986_query: *( pchar / "/" / "?" ) plus unwise bytes in permissive
    mode; stores both query (decoded or raw) and query_raw (always strndup);
    never fails. -/
def minio_rfc3986_query (u : bURI) (s : List Nat) : Int × bURI × List Nat :=
  let rest := scanNextR
    (fun l => isaPchar l || (hd0 l == 47) || (hd0 l == 63) ||
              ((u.cleanup &&& 1 != 0) && isUnwise l)) s
  let pre := consumed s rest
  (0, { u with query := captureField u.cleanup pre rest,
               query_raw := .val (pre.takeWhile (fun b => b != 0)) }, rest)

/-- The digit-accumulation loop of minio_rfc3986_port. -/
def portScan (acc : Int) : List Nat → Int × List Nat
  | [] => (acc, [])
  | b :: t =>
    if 48 ≤ b ∧ b ≤ 57 then portScan (acc * 10 + ((b : Int) - 48)) t
    else (acc, b :: t)

/-- minio_rfc3986_port: at least one digit, then a greedy digit run folded into
    port starting from 0; returns 1 (cursor unchanged) when the byte at the
    cursor is not a digit. -/
def minio_rfc3986_port (u : bURI) (s : List Nat) : Int × bURI × List Nat :=
  if isaDigit s then
    let r := portScan 0 s
    (0, { u with port := r.1 }, r.2)
  else (1, u, s)

/-- minio_rfc3986_user_info: scans *( unreserved / pct-encoded / sub-delims /
    ":" ) and commits the user field only when the byte after the run is the
    at sign (the cursor is left on the at sign); otherwise returns 1 with the
    record and cursor untouched. -/
def minio_rfc3986_user_info (u : bURI) (s : List Nat) : Int × bURI × List Nat :=
  let rest := scanNextR
    (fun l => isaUnreserved l || isaPctEncoded l || isaSubDelim l || (hd0 l == 58)) s
  if hd0 rest == 64 then
    (0, { u with user := captureField u.cleanup (consumed s rest) rest }, rest)
  else (1, u, s)

/-- minio_rfc3986_dec_octet, branch for branch from the source (lines 264-290).
    The last alternative tests *(cur+2) >= '0' (under signed char this is false
    for bytes at or above 0x80, hence the < 128 bound) but then re-tests
    *(cur+1) <= '5' instead of *(cur+2), exactly as the source does. -/
def minio_rfc3986_dec_octet (s : List Nat) : Int × List Nat :=
  if !(isaDigit s) then (1, s)
  else if !(isaDigit (s.drop 1)) then (0, s.drop 1)
  else if !(hd0 s == 48) && isaDigit (s.drop 1) && !(isaDigit (s.drop 2)) then (0, s.drop 2)
  else if (hd0 s == 49) && isaDigit (s.drop 1) && isaDigit (s.drop 2) then (0, s.drop 3)
  else if (hd0 s == 50) && decide (48 ≤ hd1 s ∧ hd1 s ≤ 52) && isaDigit (s.drop 2) then
    (0, s.drop 3)
  else if (hd0 s == 50) && (hd1 s == 53) &&
          decide (48 ≤ hd2 s ∧ hd2 s < 128) && decide (hd1 s ≤ 53) then
    (0, s.drop 3)
  else (1, s)

/-- The found: block of minio_rfc3986_host: authority is reset to NULL, and
    server receives the consumed bytes (decoded or raw) when the cursor moved,
    NULL otherwise. -/
def hostFound (u : bURI) (s rest : List Nat) : Int × bURI × List Nat :=
  let pre := consumed s rest
  (0, { u with authority := .null,
               server := if pre.length != 0 then captureField u.cleanup pre rest
                         else .null }, rest)

/-- minio_rfc3986_host: a bracket literal scanned to the closing bracket (any
    bytes allowed, fails only when unclosed), else an IPv4 attempt, else
    reg-name.  The IPv4 attempt mirrors the source exactly: after the second
    octet the dot is tested but never skipped, so the third dec-octet is
    attempted on the dot itself and the attempt always falls back to reg-name
    (goto notipv4 with the cursor rewound). -/
def minio_rfc3986_host (u : bURI) (s : List Nat) : Int × bURI × List Nat :=
  if hd0 s == 91 then
    let rest1 := scan1R (fun l => !(hd0 l == 93) && !(hd0 l == 0)) (s.drop 1)
    if !(hd0 rest1 == 93) then (1, u, s)
    else hostFound u s (rest1.drop 1)
  else
    let afterIpv4 : Option (List Nat) :=
      if isaDigit s then
        let a := minio_rfc3986_dec_octet s
        if a.1 != 0 then none
        else if !(hd0 a.2 == 46) then none
        else
          let b := minio_rfc3986_dec_octet (a.2.drop 1)
          if b.1 != 0 then none
          else if !(hd0 b.2 == 46) then none
          else
            let c := minio_rfc3986_dec_octet b.2
            if c.1 != 0 then none
            else if !(hd0 c.2 == 46) then none
            else
              let d := minio_rfc3986_dec_octet c.2
              if d.1 != 0 then none else some d.2
      else none
    match afterIpv4 with
    | some rest => hostFound u s rest
    | none =>
      let rest := scanNextR
        (fun l => isaUnreserved l || isaPctEncoded l || isaSubDelim l) s
      hostFound u s rest

/-- minio_rfc3986_authority: userinfo is attempted and its consumption kept
    only when it succeeded and the cursor rests on the at sign (then skipped);
    then host, then an optional ":" port.  A host or port failure makes the
    whole authority fail with the caller cursor unchanged (though the record
    may already have been written by the inner matchers, as in the source). -/
def minio_rfc3986_authority (u : bURI) (s : List Nat) : Int × bURI × List Nat :=
  let a := minio_rfc3986_user_info u s
  let cur := if a.1 != 0 || !(hd0 a.2.2 == 64) then s else a.2.2.drop 1
  let b := minio_rfc3986_host a.2.1 cur
  if b.1 != 0 then (1, b.2.1, s)
  else if hd0 b.2.2 == 58 then
    let c := minio_rfc3986_port b.2.1 (b.2.2.drop 1)
    if c.1 != 0 then (1, c.2.1, s) else (0, c.2.1, c.2.2)
  else (0, b.2.1, b.2.2)

/-- minio_rfc3986_segment: fails (when empty segments are not allowed) only if
    the byte at the cursor is not a pchar; otherwise consumes pchars up to the
    forbidden byte. -/
def minio_rfc3986_segment (s : List Nat) (forbid : Nat) (empty : Bool) :
    Int × List Nat :=
  if !(isaPchar s) then (if empty then (0, s) else (1, s))
  else (0, scanNextR (fun l => isaPchar l && !(hd0 l == forbid)) s)

/-- The *( "/" segment ) loop shared by the four path matchers.  The inner
    segment call allows empty segments and therefore never fails, so the error
    branch of the C loop is unreachable.  fuel bounds the iteration count;
    every iteration consumes at least the slash, so the callers pass the
    length of the list, which is always sufficient. -/
def pabLoop (fuel : Nat) (l : List Nat) : List Nat :=
  match fuel with
  | 0 => l
  | f + 1 =>
    if hd0 l == 47 then pabLoop f (minio_rfc3986_segment (l.drop 1) 0 true).2
    else l

/-- minio_rfc3986_path_ab_empty: *( "/" segment ); never fails; path receives
    the consumed bytes when any were consumed, NULL otherwise. -/
def minio_rfc3986_path_ab_empty (u : bURI) (s : List Nat) : Int × bURI × List Nat :=
  let rest := pabLoop s.length s
  let pre := consumed s rest
  (0, { u with path := if pre.length != 0 then captureField u.cleanup pre rest
                       else .null }, rest)

/-- minio_rfc3986_path_absolute: "/" segment-nz *( "/" segment ).  As in the
    source, when the mandatory first segment fails the function still commits
    the path (the slash was consumed) and advances the cursor, returning the
    segment error code. -/
def minio_rfc3986_path_absolute (u : bURI) (s : List Nat) : Int × bURI × List Nat :=
  if !(hd0 s == 47) then (1, u, s)
  else
    let a := minio_rfc3986_segment (s.drop 1) 0 false
    let rest := if a.1 == 0 then pabLoop a.2.length a.2 else a.2
    let pre := consumed s rest
    (a.1, { u with path := if pre.length != 0 then captureField u.cleanup pre rest
                           else .null }, rest)

/-- minio_rfc3986_path_rootless: segment-nz *( "/" segment ). -/
def minio_rfc3986_path_rootless (u : bURI) (s : List Nat) : Int × bURI × List Nat :=
  let a := minio_rfc3986_segment s 0 false
  if a.1 != 0 then (a.1, u, s)
  else
    let rest := pabLoop a.2.length a.2
    let pre := consumed s rest
    (0, { u with path := if pre.length != 0 then captureField u.cleanup pre rest
                         else .null }, rest)

/-- minio_rfc3986_path_no_scheme: segment-nz-nc *( "/" segment ); the first
    segment forbids the colon (byte 58). -/
def minio_rfc3986_path_no_scheme (u : bURI) (s : List Nat) : Int × bURI × List Nat :=
  let a := minio_rfc3986_segment s 58 false
  if a.1 != 0 then (a.1, u, s)
  else
    let rest := pabLoop a.2.length a.2
    let pre := consumed s rest
    (0, { u with path := if pre.length != 0 then captureField u.cleanup pre rest
                         else .null }, rest)

/-- minio_rfc3986_hier_part: dispatch on "//", "/", pchar, or empty path. -/
def minio_rfc3986_hier_part (u : bURI) (s : List Nat) : Int × bURI × List Nat :=
  if (hd0 s == 47) && (hd1 s == 47) then
    let a := minio_rfc3986_authority u (s.drop 2)
    if a.1 != 0 then (a.1, a.2.1, s)
    else
      let b := minio_rfc3986_path_ab_empty a.2.1 a.2.2
      if b.1 != 0 then (b.1, b.2.1, s) else (0, b.2.1, b.2.2)
  else if hd0 s == 47 then
    let a := minio_rfc3986_path_absolute u s
    if a.1 != 0 then (a.1, a.2.1, s) else (0, a.2.1, a.2.2)
  else if isaPchar s then
    let a := minio_rfc3986_path_rootless u s
    if a.1 != 0 then (a.1, a.2.1, s) else (0, a.2.1, a.2.2)
  else (0, { u with path := .null }, s)

/-- The optional query step at the end of both top-level grammar rules: the
    query matcher runs only when the cursor is on the question mark (which is
    consumed first). -/
def optQuery (u : bURI) (s : List Nat) : Int × bURI × List Nat :=
  if hd0 s == 63 then minio_rfc3986_query u (s.drop 1) else (0, u, s)

/-- The optional fragment step: the fragment matcher runs only when the cursor
    is on the hash sign (which is consumed first). -/
def optFragment (u : bURI) (s : List Nat) : Int × bURI × List Nat :=
  if hd0 s == 35 then minio_rfc3986_fragment u (s.drop 1) else (0, u, s)

/-- The identical tail shared (as duplicated code) by minio_rfc3986 and
    minio_rfc3986_relative_ref: [ "?" query ] [ "#" fragment ], then the
    trailing-input check that performs URI_TRIM and returns 1 when the cursor
    is not on the terminator.  The error checks after query and fragment are
    kept from the source even though those matchers always return 0 here. -/
def queryFragmentTail (u : bURI) (s : List Nat) : Int × bURI :=
  let q := optQuery u s
  if q.1 != 0 then (q.1, q.2.1)
  else
    let f := optFragment q.2.1 q.2.2
    if f.1 != 0 then (f.1, f.2.1)
    else if !(hd0 f.2.2 == 0) then (1, URI_TRIM f.2.1)
    else (0, f.2.1)

/-- The relative-part dispatch at the top of minio_rfc3986_relative_ref:
    "//" authority path-abempty / path-absolute / path-noscheme /
    path-empty. -/
def relativePart (u : bURI) (s : List Nat) : Int × bURI × List Nat :=
  if (hd0 s == 47) && (hd1 s == 47) then
    let a := minio_rfc3986_authority u (s.drop 2)
    if a.1 != 0 then (a.1, a.2.1, s)
    else minio_rfc3986_path_ab_empty a.2.1 a.2.2
  else if hd0 s == 47 then minio_rfc3986_path_absolute u s
  else if isaPchar s then minio_rfc3986_path_no_scheme u s
  else (0, { u with path := .null }, s)

/-- minio_rfc3986_relative_ref: relative-part [ "?" query ] [ "#" fragment ],
    with trailing unconsumed input causing URI_TRIM and error 1. -/
def minio_rfc3986_relative_ref (u : bURI) (s : List Nat) : Int × bURI :=
  let a := relativePart u s
  if a.1 != 0 then (a.1, a.2.1)
  else queryFragmentTail a.2.1 a.2.2

/-- minio_rfc3986: scheme ":" hier-part [ "?" query ] [ "#" fragment ], with
    trailing unconsumed input causing URI_TRIM and error 1. -/
def minio_rfc3986 (u : bURI) (s : List Nat) : Int × bURI :=
  let a := minio_rfc3986_scheme u s
  if a.1 != 0 then (a.1, a.2.1)
  else if !(hd0 a.2.2 == 58) then (1, a.2.1)
  else
    let b := minio_rfc3986_hier_part a.2.1 (a.2.2.drop 1)
    if b.1 != 0 then (b.1, b.2.1)
    else queryFragmentTail b.2.1 b.2.2

/-- minio_rfc3986_uri_reference: URI_TRIM on entry, absolute grammar first,
    then URI_TRIM and the relative grammar, then URI_TRIM on terminal
    failure. -/
def minio_rfc3986_uri_reference (u : bURI) (s : List Nat) : Int × bURI :=
  let a := minio_rfc3986 (URI_TRIM u) s
  if a.1 != 0 then
    let b := minio_rfc3986_relative_ref (URI_TRIM a.2) s
    if b.1 != 0 then (b.1, URI_TRIM b.2) else b
  else a

/-- minio_uri_parse_into. -/
def minio_uri_parse_into (u : bURI) (s : List Nat) : Int × bURI :=
  minio_rfc3986_uri_reference u s

/-- minio_uri_parse: a NULL string is an error; otherwise the return value of
    the inner parse is discarded, and failure is reported (with no record
    delivered) only when the scheme field holds the freed sentinel. -/
def minio_uri_parse (s : Option (List Nat)) : Int × Option bURI :=
  match s with
  | none => (-1, none)
  | some str =>
    let u1 := (minio_uri_parse_into freshURI str).2
    if u1.scheme == Field.poison then (-1, none) else (0, some u1)

/-- minio_uri_parse_raw: raw different from 0 sets cleanup bit 1 before
    parsing; any nonzero parse result frees the record and yields NULL. -/
def minio_uri_parse_raw (s : Option (List Nat)) (raw : Int) : Option bURI :=
  match s with
  | none => none
  | some str =>
    let u0 := if raw != 0 then { freshURI with cleanup := freshURI.cleanup ||| 2 }
              else freshURI
    let r := minio_uri_parse_into u0 str
    if r.1 != 0 then none else some r.2

/-! Helper lemmas about the freed sentinel and the query fields. -/

/-- A freed field never holds an owned string. -/
theorem Field.free_isVal (f : Field) : f.free.isVal = false := by
  cases f <;> rfl

/-- URI_TRIM leaves none of its eight fields holding an owned string. -/
theorem URI_TRIM_isVal (u : bURI) :
    (URI_TRIM u).scheme.isVal = false ∧ (URI_TRIM u).server.isVal = false ∧
    (URI_TRIM u).user.isVal = false ∧ (URI_TRIM u).path.isVal = false ∧
    (URI_TRIM u).fragment.isVal = false ∧ (URI_TRIM u).opq.isVal = false ∧
    (URI_TRIM u).authority.isVal = false ∧ (URI_TRIM u).query.isVal = false :=
  ⟨Field.free_isVal _, Field.free_isVal _, Field.free_isVal _, Field.free_isVal _,
   Field.free_isVal _, Field.free_isVal _, Field.free_isVal _, Field.free_isVal _⟩

/-- The scheme matcher does not touch query or query_raw. -/
theorem scheme_qpres (u : bURI) (s : List Nat) :
    (minio_rfc3986_scheme u s).2.1.query = u.query ∧
    (minio_rfc3986_scheme u s).2.1.query_raw = u.query_raw := by
  simp only [minio_rfc3986_scheme]; split <;> exact ⟨rfl, rfl⟩

/-- The fragment matcher does not touch query or query_raw. -/
theorem fragment_qpres (u : bURI) (s : List Nat) :
    (minio_rfc3986_fragment u s).2.1.query = u.query ∧
    (minio_rfc3986_fragment u s).2.1.query_raw = u.query_raw :=
  ⟨rfl, rfl⟩

/-- The port matcher does not touch query or query_raw. -/
theorem port_qpres (u : bURI) (s : List Nat) :
    (minio_rfc3986_port u s).2.1.query = u.query ∧
    (minio_rfc3986_port u s).2.1.query_raw = u.query_raw := by
  simp only [minio_rfc3986_port]; split <;> exact ⟨rfl, rfl⟩

/-- The userinfo matcher does not touch query or query_raw. -/
theorem user_info_qpres (u : bURI) (s : List Nat) :
    (minio_rfc3986_user_info u s).2.1.query = u.query ∧
    (minio_rfc3986_user_info u s).2.1.query_raw = u.query_raw := by
  simp only [minio_rfc3986_user_info]; split <;> exact ⟨rfl, rfl⟩

/-- The host matcher does not touch query or query_raw. -/
theorem host_qpres (u : bURI) (s : List Nat) :
    (minio_rfc3986_host u s).2.1.query = u.query ∧
    (minio_rfc3986_host u s).2.1.query_raw = u.query_raw := by
  simp only [minio_rfc3986_host, hostFound]
  repeat' split
  all_goals exact ⟨rfl, rfl⟩

/-- The authority matcher does not touch query or query_raw. -/
theorem authority_qpres (u : bURI) (s : List Nat) :
    (minio_rfc3986_authority u s).2.1.query = u.query ∧
    (minio_rfc3986_authority u s).2.1.query_raw = u.query_raw := by
  refine ⟨?_, ?_⟩ <;>
  · simp only [minio_rfc3986_authority]
    repeat' split
    all_goals simp only [port_qpres, host_qpres, user_info_qpres]

/-- path-abempty does not touch query or query_raw. -/
theorem path_ab_empty_qpres (u : bURI) (s : List Nat) :
    (minio_rfc3986_path_ab_empty u s).2.1.query = u.query ∧
    (minio_rfc3986_path_ab_empty u s).2.1.query_raw = u.query_raw :=
  ⟨rfl, rfl⟩

/-- path-absolute does not touch query or query_raw. -/
theorem path_absolute_qpres (u : bURI) (s : List Nat) :
    (minio_rfc3986_path_absolute u s).2.1.query = u.query ∧
    (minio_rfc3986_path_absolute u s).2.1.query_raw = u.query_raw := by
  simp only [minio_rfc3986_path_absolute]; split <;> exact ⟨rfl, rfl⟩

/-- path-rootless does not touch query or query_raw. -/
theorem path_rootless_qpres (u : bURI) (s : List Nat) :
    (minio_rfc3986_path_rootless u s).2.1.query = u.query ∧
    (minio_rfc3986_path_rootless u s).2.1.query_raw = u.query_raw := by
  simp only [minio_rfc3986_path_rootless]; split <;> exact ⟨rfl, rfl⟩

/-- path-noscheme does not touch query or query_raw. -/
theorem path_no_scheme_qpres (u : bURI) (s : List Nat) :
    (minio_rfc3986_path_no_scheme u s).2.1.query = u.query ∧
    (minio_rfc3986_path_no_scheme u s).2.1.query_raw = u.query_raw := by
  simp only [minio_rfc3986_path_no_scheme]; split <;> exact ⟨rfl, rfl⟩

/-- hier-part does not touch query or query_raw. -/
theorem hier_part_qpres (u : bURI) (s : List Nat) :
    (minio_rfc3986_hier_part u s).2.1.query = u.query ∧
    (minio_rfc3986_hier_part u s).2.1.query_raw = u.query_raw := by
  refine ⟨?_, ?_⟩ <;>
  · simp only [minio_rfc3986_hier_part]
    repeat' split
    all_goals simp only [path_ab_empty_qpres, path_absolute_qpres,
      path_rootless_qpres, authority_qpres]

/-- relative-part does not touch query or query_raw. -/
theorem relativePart_qpres (u : bURI) (s : List Nat) :
    (relativePart u s).2.1.query = u.query ∧
    (relativePart u s).2.1.query_raw = u.query_raw := by
  refine ⟨?_, ?_⟩ <;>
  · simp only [relativePart]
    repeat' split
    all_goals simp only [path_ab_empty_qpres, path_absolute_qpres,
      path_no_scheme_qpres, authority_qpres]

/-- After the query matcher runs, query_raw holds an owned string. -/
theorem query_sets_query_raw (u : bURI) (s : List Nat) :
    (minio_rfc3986_query u s).2.1.query_raw.isVal = true :=
  rfl

/-- The invariant relating the two query fields: query never holds an owned
    string unless query_raw does. -/
def QSync (u : bURI) : Prop := u.query.isVal = true → u.query_raw.isVal = true

/-- Transport of the invariant along untouched query fields. -/
theorem qsync_of_eq {a b : bURI} (h1 : a.query = b.query)
    (h2 : a.query_raw = b.query_raw) (h : QSync b) : QSync a := by
  intro hq
  rw [h2]
  exact h (h1 ▸ hq)

/-- URI_TRIM establishes the invariant (it releases query). -/
theorem qsync_trim (u : bURI) : QSync (URI_TRIM u) := by
  intro hq
  exact absurd hq (by simp [URI_TRIM, Field.free_isVal])

/-- The query matcher establishes the invariant (it sets query_raw). -/
theorem qsync_query (u : bURI) (s : List Nat) :
    QSync (minio_rfc3986_query u s).2.1 :=
  fun _ => query_sets_query_raw u s

/-- The query-fragment tail preserves the invariant. -/
theorem qsync_tail (u : bURI) (s : List Nat) (h : QSync u) :
    QSync (queryFragmentTail u s).2 := by
  have hq : QSync (optQuery u s).2.1 := by
    unfold optQuery
    split
    · exact qsync_query _ _
    · exact h
  rcases hQ : optQuery u s with ⟨r1, v1, t1⟩
  rw [hQ] at hq
  have hf : QSync (optFragment v1 t1).2.1 := by
    unfold optFragment
    split
    · exact qsync_of_eq (fragment_qpres _ _).1 (fragment_qpres _ _).2 hq
    · exact hq
  rcases hF : optFragment v1 t1 with ⟨r2, v2, t2⟩
  rw [hF] at hf
  simp only [queryFragmentTail, hQ, hF]
  repeat' split
  all_goals first | exact qsync_trim _ | exact hq | exact hf

/-- minio_rfc3986_relative_ref preserves the invariant. -/
theorem qsync_relative_ref (u : bURI) (s : List Nat) (h : QSync u) :
    QSync (minio_rfc3986_relative_ref u s).2 := by
  have hrel : QSync (relativePart u s).2.1 :=
    qsync_of_eq (relativePart_qpres u s).1 (relativePart_qpres u s).2 h
  rcases hA : relativePart u s with ⟨r, v, t⟩
  rw [hA] at hrel
  simp only [minio_rfc3986_relative_ref, hA]
  split
  · exact hrel
  · exact qsync_tail _ _ hrel

/-- minio_rfc3986 preserves the invariant. -/
theorem qsync_rfc3986 (u : bURI) (s : List Nat) (h : QSync u) :
    QSync (minio_rfc3986 u s).2 := by
  have hs : QSync (minio_rfc3986_scheme u s).2.1 :=
    qsync_of_eq (scheme_qpres u s).1 (scheme_qpres u s).2 h
  rcases hA : minio_rfc3986_scheme u s with ⟨r1, v1, t1⟩
  rw [hA] at hs
  have hh : QSync (minio_rfc3986_hier_part v1 (t1.drop 1)).2.1 :=
    qsync_of_eq (hier_part_qpres _ _).1 (hier_part_qpres _ _).2 hs
  rcases hB : minio_rfc3986_hier_part v1 (t1.drop 1) with ⟨r2, v2, t2⟩
  rw [hB] at hh
  simp only [minio_rfc3986, hA, hB]
  repeat' split
  all_goals first | exact hs | exact hh | exact qsync_tail _ _ hh

/-- Every call of the top-level reference parser leaves a record in which the
    query field holds an owned string only if query_raw does (the converse
    does not hold, see the corresponding counterexample). -/
theorem qsync_uri_reference (u : bURI) (s : List Nat) :
    QSync (minio_rfc3986_uri_reference u s).2 := by
  rcases hA : minio_rfc3986 (URI_TRIM u) s with ⟨r1, v1⟩
  have ha : QSync v1 := by
    have hx := qsync_rfc3986 (URI_TRIM u) s (qsync_trim u)
    rwa [hA] at hx
  rcases hB : minio_rfc3986_relative_ref (URI_TRIM v1) s with ⟨r2, v2⟩
  have hb : QSync v2 := by
    have hx := qsync_relative_ref (URI_TRIM v1) s (qsync_trim v1)
    rwa [hB] at hx
  simp only [minio_rfc3986_uri_reference, hA, hB]
  repeat' split
  all_goals first | exact qsync_trim _ | exact hb | exact ha

/-! Helper lemmas for the escape/unescape round trip. -/

/-- A byte other than the percent sign is copied verbatim by the unescape
    loop. -/
theorem unescapeCore_cons (b : Nat) (t : List Nat) (hb : b ≠ 37) :
    unescapeCore (b :: t) = b :: unescapeCore t := by
  rw [unescapeCore.eq_def]
  split
  · simp_all
  · rename_i a c t2 heq
    rw [List.cons.injEq] at heq
    exact absurd heq.1 hb
  · rename_i heq
    rw [List.cons.injEq] at heq
    rw [heq.1, heq.2]

/-- A full percent escape at the head of the unescape loop decodes to one
    byte. -/
theorem unescapeCore_pct (a c : Nat) (t : List Nat)
    (ha : hexDigB a = true) (hc : hexDigB c = true) :
    unescapeCore (37 :: a :: c :: t) = (hexVal a * 16 + hexVal c) :: unescapeCore t := by
  rw [unescapeCore.eq_def]
  simp [ha, hc]

/-- Both hex digits emitted for a nibble are hex digits that decode back to
    the nibble, and are nonzero and not the percent sign. -/
theorem hexDigitChar_spec :
    ∀ v : Nat, v < 16 →
      hexDigB (hexDigitChar v) = true ∧ hexVal (hexDigitChar v) = v ∧
      hexDigitChar v ≠ 0 ∧ hexDigitChar v ≠ 37 := by
  decide

/-- takeWhile keeps a list without NUL bytes whole. -/
theorem takeWhile_nonzero (l : List Nat) (h : ∀ x ∈ l, x ≠ 0) :
    l.takeWhile (fun b => b != 0) = l := by
  induction l with
  | nil => rfl
  | cons b t ih =>
    have hb : b ≠ 0 := h b (List.mem_cons_self b t)
    simp only [List.takeWhile_cons]
    rw [if_pos (by simpa using hb)]
    rw [ih (fun x hx => h x (List.mem_cons_of_mem b hx))]

/-- Escaping with an empty exception list and then unescaping is the identity
    on byte strings confined to 0x01-0x7F, and the escaped string contains no
    NUL byte. -/
theorem escape_unescape_ascii (s : List Nat) (h : ∀ b ∈ s, 1 ≤ b ∧ b ≤ 127) :
    unescapeCore (escapeCore [] s) = s ∧ ∀ x ∈ escapeCore [] s, x ≠ 0 := by
  induction s with
  | nil => exact ⟨rfl, by simp [escapeCore]⟩
  | cons b t ih =>
    have hb : 1 ≤ b ∧ b ≤ 127 := h b (List.mem_cons_self b t)
    obtain ⟨ih1, ih2⟩ := ih (fun x hx => h x (List.mem_cons_of_mem b hx))
    have hb0 : ¬(b == 0) = true := by simp; omega
    rw [escapeCore.eq_def]
    simp only [if_neg hb0]
    split
    · -- escaped branch
      rename_i hcond
      have hhi : escHiVal b = b / 16 := by unfold escHiVal; rw [if_pos (by omega)]
      have h1 := hexDigitChar_spec (b / 16) (by omega)
      have h2 := hexDigitChar_spec (b % 16) (by omega)
      constructor
      · rw [hhi, unescapeCore_pct _ _ _ h1.1 h2.1, h1.2.1, h2.2.1,
            show b / 16 * 16 + b % 16 = b by omega, ih1]
      · intro x hx
        rw [hhi] at hx
        simp only [List.mem_cons] at hx
        rcases hx with rfl | rfl | rfl | hx
        · omega
        · exact h1.2.2.1
        · exact h2.2.2.1
        · exact ih2 x hx
    · -- verbatim branch: the byte is the at sign or legacy-unreserved, hence
      -- not the percent sign
      rename_i hcond
      have hb37 : b ≠ 37 := by
        intro he
        subst he
        exact hcond (by decide)
      constructor
      · rw [unescapeCore_cons _ _ hb37, ih1]
      · intro x hx
        simp only [List.mem_cons] at hx
        rcases hx with rfl | hx
        · omega
        · exact ih2 x hx

/-! The claims. -/

/-- Claim C1, counterexample: the single space is rejected by the grammar
    (minio_uri_parse_into returns 1), yet minio_uri_parse reports success
    (return 0) and delivers a record, because failure is detected only through
    the freed-scheme sentinel and no attempt ever captured a scheme here. -/
theorem c1_counterexample :
    (minio_uri_parse (some (bstr " "))).1 = 0 ∧
    (minio_uri_parse (some (bstr " "))).2.isSome = true ∧
    (minio_uri_parse_into freshURI (bstr " ")).1 = 1 := by decide

/-- Claim C1 (amended): minio_uri_parse reports an error for a null string;
    for a non-null string it reports an error exactly when the parse left the
    scheme field holding the freed sentinel, so malformed inputs on which no
    grammar attempt captured a scheme are reported as success with a record
    delivered. -/
theorem c1_parse_error_detection :
    minio_uri_parse none = (-1, none) ∧
    ∀ s : List Nat,
      (minio_uri_parse (some s)).1 = -1 ↔
        (minio_uri_parse_into freshURI s).2.scheme = Field.poison := by
  refine ⟨rfl, ?_⟩
  intro s
  rcases hp : minio_uri_parse_into freshURI s with ⟨r, u1⟩
  simp only [minio_uri_parse, hp]
  split
  · rename_i hc
    simp only [beq_iff_eq] at hc
    simp [hc]
  · rename_i hc
    simp only [beq_iff_eq] at hc
    exact ⟨fun h => absurd (show (0 : Int) = -1 from h) (by decide),
           fun h => absurd h hc⟩

/-- Claim C2, counterexample: the parse of "//h?q |" fails (trailing space),
    but the record is not fully cleared: query_raw still owns the captured
    string "q", because URI_TRIM does not release query_raw. -/
theorem c2_counterexample :
    (minio_uri_parse_into freshURI (bstr "//h?q |")).1 = 1 ∧
    (minio_uri_parse_into freshURI (bstr "//h?q |")).2.query_raw
      = Field.val (bstr "q") := by decide

/-- Claim C2 (amended): on any failing top-level parse the eight fields
    covered by URI_TRIM (scheme, server, user, path, fragment, opaque,
    authority, query) hold no owned string (each is NULL or the freed
    sentinel); query_raw and port are not part of the trim and may keep state
    from the failed attempts. -/
theorem c2_failure_clears_trimmed_fields (u : bURI) (s : List Nat)
    (h : (minio_uri_parse_into u s).1 ≠ 0) :
    (minio_uri_parse_into u s).2.scheme.isVal = false ∧
    (minio_uri_parse_into u s).2.server.isVal = false ∧
    (minio_uri_parse_into u s).2.user.isVal = false ∧
    (minio_uri_parse_into u s).2.path.isVal = false ∧
    (minio_uri_parse_into u s).2.fragment.isVal = false ∧
    (minio_uri_parse_into u s).2.opq.isVal = false ∧
    (minio_uri_parse_into u s).2.authority.isVal = false ∧
    (minio_uri_parse_into u s).2.query.isVal = false := by
  rcases hA : minio_rfc3986 (URI_TRIM u) s with ⟨r1, v1⟩
  rcases hB : minio_rfc3986_relative_ref (URI_TRIM v1) s with ⟨r2, v2⟩
  have hres : minio_uri_parse_into u s =
      (if r1 != 0 then (if r2 != 0 then (r2, URI_TRIM v2) else (r2, v2))
       else (r1, v1)) := by
    simp only [minio_uri_parse_into, minio_rfc3986_uri_reference, hA, hB]
  rw [hres] at h ⊢
  by_cases h1 : r1 = 0
  · simp [h1] at h
  · have h1b : (r1 != 0) = true := by simp [h1]
    rw [if_pos h1b] at h ⊢
    by_cases h2 : r2 = 0
    · simp [h2] at h
    · have h2b : (r2 != 0) = true := by simp [h2]
      rw [if_pos h2b]
      exact URI_TRIM_isVal v2

/-- Witness for the amended C2 claim at the concrete rejected input made of
    the single vertical-bar byte. -/
theorem c2_witness :
    (minio_uri_parse_into freshURI [124]).2.scheme.isVal = false ∧
    (minio_uri_parse_into freshURI [124]).2.server.isVal = false ∧
    (minio_uri_parse_into freshURI [124]).2.user.isVal = false ∧
    (minio_uri_parse_into freshURI [124]).2.path.isVal = false ∧
    (minio_uri_parse_into freshURI [124]).2.fragment.isVal = false ∧
    (minio_uri_parse_into freshURI [124]).2.opq.isVal = false ∧
    (minio_uri_parse_into freshURI [124]).2.authority.isVal = false ∧
    (minio_uri_parse_into freshURI [124]).2.query.isVal = false :=
  c2_failure_clears_trimmed_fields freshURI [124] (by decide)

/-- Claim C3, counterexample: under the signed-char reading of uri.c the byte
    0x80 escapes (empty exception list) to the three bytes percent, slash,
    zero-digit, which unescape back to themselves, not to 0x80. -/
theorem c3_counterexample :
    minio_uri_string_unescape (minio_uri_string_escape [128] []) 0 = [37, 47, 48] ∧
    minio_uri_string_unescape (minio_uri_string_escape [128] []) 0 ≠ [128] := by
  decide

/-- Claim C3 (amended): unescape of escape with an empty exception list is the
    identity on byte strings whose bytes all lie in 0x01-0x7F; for larger
    bytes the arithmetic shift of the negative char corrupts the emitted hex
    digits (see the counterexample). -/
theorem c3_ascii_roundtrip (s : List Nat) (h : ∀ b ∈ s, 1 ≤ b ∧ b ≤ 127) :
    minio_uri_string_unescape (minio_uri_string_escape s []) 0 = s := by
  obtain ⟨h1, h2⟩ := escape_unescape_ascii s h
  have hn : cstrlen (escapeCore [] s) = (escapeCore [] s).length := by
    unfold cstrlen
    rw [takeWhile_nonzero _ h2]
  simp only [minio_uri_string_unescape, minio_uri_string_escape]
  rw [if_pos (by decide : (0 : Int) ≤ 0), hn, List.take_length, h1]

/-- Witness for the amended C3 claim on a concrete printable string that
    contains both verbatim and escaped bytes. -/
theorem c3_witness :
    minio_uri_string_unescape (minio_uri_string_escape (bstr "a% ~/x") []) 0
      = bstr "a% ~/x" :=
  c3_ascii_roundtrip (bstr "a% ~/x") (by decide)

/-- Claim C4, counterexample: after successfully re-parsing "z" into the
    record produced by parsing "?q", the operation returned 0 yet query holds
    no owned string (released by the entry URI_TRIM) while query_raw still
    owns "q": the two fields are not kept in sync. -/
theorem c4_counterexample :
    (minio_uri_parse_into (minio_uri_parse_into freshURI (bstr "?q")).2
        (bstr "z")).1 = 0 ∧
    (minio_uri_parse_into (minio_uri_parse_into freshURI (bstr "?q")).2
        (bstr "z")).2.query.isVal = false ∧
    (minio_uri_parse_into (minio_uri_parse_into freshURI (bstr "?q")).2
        (bstr "z")).2.query_raw = Field.val (bstr "q") := by decide

/-- Claim C4 (amended): the synchronisation is one-directional — after any
    parse attempt, if query holds an owned string then so does query_raw (the
    query matcher always writes both); the converse fails because URI_TRIM
    releases query but never query_raw. -/
theorem c4_query_implies_query_raw (u : bURI) (s : List Nat)
    (h : (minio_uri_parse_into u s).2.query.isVal = true) :
    (minio_uri_parse_into u s).2.query_raw.isVal = true :=
  qsync_uri_reference u s h

/-- Witness for the amended C4 claim at a concrete parse with a query. -/
theorem c4_witness :
    (minio_uri_parse_into freshURI (bstr "?a")).2.query_raw.isVal = true :=
  c4_query_implies_query_raw freshURI (bstr "?a") (by decide)

/-- Claim C5: the dec-octet matcher consumes all three bytes of "256" and
    reports success, although 256 exceeds 255; the fifth alternative of the
    source tests *(cur+1) <= '5' where the grammar in its own comment requires
    *(cur+2) in %x30-35. -/
theorem c5_dec_octet_overrange :
    minio_rfc3986_dec_octet (bstr "256") = (0, []) := by decide

/-- Claim C6, counterexample: "http://h:/x" does not parse successfully (the
    claim says it does): the parse returns an error. -/
theorem c6_counterexample :
    (minio_uri_parse_into freshURI (bstr "http://h:/x")).1 ≠ 0 := by decide

/-- Claim C6 (amended): a colon after the host must be followed by at least
    one digit: when the byte at the cursor is not a digit the port matcher
    fails with the cursor and record untouched, the authority matcher
    propagates the failure, and "http://h:/x" fails to parse (return 1). -/
theorem c6_missing_port_digit_fails :
    (∀ (u : bURI) (s : List Nat), isaDigit s = false →
        minio_rfc3986_port u s = (1, u, s)) ∧
    (minio_uri_parse_into freshURI (bstr "http://h:/x")).1 = 1 := by
  constructor
  · intro u s h
    unfold minio_rfc3986_port
    rw [if_neg (by simp [h])]
  · decide

/-- Witness for the amended C6 claim: the port matcher fails on the suffix
    "/x" that follows the colon of "http://h:". -/
theorem c6_witness :
    minio_rfc3986_port freshURI (bstr "/x") = (1, freshURI, bstr "/x") :=
  c6_missing_port_digit_fails.1 freshURI (bstr "/x") (by decide)

/-- Claim C7: "http://foo/bar" parses with server "foo" and no user field,
    and in general the userinfo matcher either succeeds (having found the at
    sign) or leaves record and cursor exactly as given, so a userinfo-shaped
    run is never committed without a terminating at sign. -/
theorem c7_userinfo_requires_at :
    ((minio_uri_parse_into freshURI (bstr "http://foo/bar")).1 = 0 ∧
     (minio_uri_parse_into freshURI (bstr "http://foo/bar")).2.server
       = Field.val (bstr "foo") ∧
     (minio_uri_parse_into freshURI (bstr "http://foo/bar")).2.user
       = Field.null) ∧
    ∀ (u : bURI) (s : List Nat),
      (minio_rfc3986_user_info u s).1 = 0 ∨
        (minio_rfc3986_user_info u s).2 = (u, s) := by
  constructor
  · exact ⟨by decide, by decide, by decide⟩
  · intro u s
    simp only [minio_rfc3986_user_info]
    split
    · exact Or.inl rfl
    · exact Or.inr rfl

/-- Claim C8: "http://[::1]:8080/x" parses successfully with the brackets
    retained in server, port 8080 and path "/x". -/
theorem c8_bracketed_host :
    (minio_uri_parse_into freshURI (bstr "http://[::1]:8080/x")).1 = 0 ∧
    (minio_uri_parse_into freshURI (bstr "http://[::1]:8080/x")).2.server
      = Field.val (bstr "[::1]") ∧
    (minio_uri_parse_into freshURI (bstr "http://[::1]:8080/x")).2.port = 8080 ∧
    (minio_uri_parse_into freshURI (bstr "http://[::1]:8080/x")).2.path
      = Field.val (bstr "/x") := by decide

/-- Claim C9: raw mode keeps the captured path verbatim ("/%41") while the
    default mode percent-decodes it ("/A"). -/
theorem c9_raw_mode_escapes :
    (minio_uri_parse_raw (some (bstr "http://h/%41")) 1).map bURI.path
      = some (Field.val (bstr "/%41")) ∧
    (minio_uri_parse_raw (some (bstr "http://h/%41")) 0).map bURI.path
      = some (Field.val (bstr "/A")) := by decide

/-- Claim C10: parsing the empty string into a fresh record succeeds with
    return value 0 and leaves the record identical to the fresh one: every
    component field absent and port zero. -/
theorem c10_empty_parse :
    minio_uri_parse_into freshURI [] = (0, freshURI) := by decide

end MinioUri
